import Mathlib

/-!
Verification of the customer-support-bot retrieval-and-refinement engine.

The development shallowly embeds the core logic of `app.py` and
`support_bot_agent.py`:
* the Relevance Resolver (`find_relevant_section`, identical in both files),
* the Answer Extractor of the agent (`answer_query`),
* the Feedback Refiner of the agent (`adjust_response`),
* the Gradio session state machine (`process_file`, `handle_input`).

The embedding and QA models are external capabilities (out of scope per the
specification), so they enter the embedding as parameters: the cosine
similarity scores of a query against every section are an abstract
`List ℚ` (respectively an oracle `String → List ℚ` at the state-machine
level, reflecting that the scores are a deterministic function of the query
for a fixed section index), and the extractive QA model is an abstract
function `String → String → String` (question, context ↦ answer span).

Fallible Python code (code that can raise) is embedded in `Option`, with
`none` for a raised exception.
-/

/-- Python `s.lower()`: lowercase every character. -/
def pyLower (s : String) : String :=
  String.mk (s.data.map Char.toLower)

/-- Accumulator-style splitting of a character list into maximal runs of
non-whitespace characters, dropping empty runs. -/
def wordsAux (cur : List Char) : List Char → List (List Char)
  | [] => if cur.isEmpty then [] else [cur.reverse]
  | c :: cs =>
    if c.isWhitespace then
      if cur.isEmpty then wordsAux [] cs else cur.reverse :: wordsAux [] cs
    else wordsAux (c :: cur) cs

/-- Python `s.split()` with no argument: split on runs of whitespace,
discarding empty strings. -/
def pyWords (s : String) : List String :=
  (wordsAux [] s.data).map String.mk

/-- Python `s[:n]`: the first `n` characters of `s`. -/
def pyTake (s : String) (n : Nat) : String :=
  String.mk (s.data.take n)

/-- Python string interpolation of a possibly-`None` value. -/
def optStr : Option String → String
  | none => "None"
  | some a => a

/-- The fixed stopword set of `find_relevant_section` (both copies). -/
def stopwords : List String :=
  ["and", "the", "is", "for", "to", "a", "an", "of", "in", "on", "at",
   "with", "by", "it", "as", "so", "what"]

/-- The literal fallback string returned by `find_relevant_section`
(both copies) when no section is relevant. -/
def sentinel : String := "I don’t have enough information to answer that."

/-- The fixed semantic-confidence threshold `0.4` of
`find_relevant_section`. -/
def SIMILARITY_THRESHOLD : ℚ := mkRat 2 5

/-- Python `{word for word in s.lower().split() if word not in stopwords}`,
as a duplicate-free list. -/
def significantWords (s : String) : List String :=
  ((pyWords (pyLower s)).filter (fun w => w ∉ stopwords)).dedup

/-- Python `len(query_words.intersection(section_words))`: the number of
distinct non-stopword words shared by `q` and `sec`. -/
def commonCount (q sec : String) : Nat :=
  ((significantWords q).filter (fun w => w ∈ significantWords sec)).length

/-- The keyword-based fallback loop of `find_relevant_section`: return the
first section, in original order, sharing at least 2 significant words with
the query. -/
def keywordSearch (q : String) : List String → Option String
  | [] => none
  | sec :: rest =>
    if 2 ≤ commonCount q sec then some sec else keywordSearch q rest

/-- The maximum of a similarity tensor; `none` on an empty tensor. -/
def listMax? : List ℚ → Option ℚ
  | [] => none
  | x :: xs => some (xs.foldl max x)

/-- `similarities.argmax().item()`: the index of the first occurrence of the
maximum similarity; `none` (an exception in torch) on an empty tensor. -/
def argmaxIdx? (sims : List ℚ) : Option Nat :=
  (listMax? sims).map (fun m => sims.findIdx (fun x => decide (x = m)))

/-- `find_relevant_section(query, sections, section_embeddings)` from
`app.py` (lines 31–58), identical to
`SupportBotAgent.find_relevant_section` (lines 52–90): semantic tier over
the similarity scores `sims`, keyword fallback tier, then the sentinel.
`none` models a raised exception (argmax over an empty tensor, or indexing
`sections[best_idx]` out of range). -/
def find_relevant_section (query : String) (sections : List String)
    (sims : List ℚ) : Option String :=
  match argmaxIdx? sims with
  | none => none
  | some best_idx =>
    match sections[best_idx]? with
    | none => none
    | some best_section =>
      match sims[best_idx]? with
      | none => none
      | some similarity_score =>
        if SIMILARITY_THRESHOLD ≤ similarity_score then some best_section
        else
          match keywordSearch query sections with
          | some sec => some sec
          | none => some sentinel

/-- `SupportBotAgent.answer_query` (lines 93–111): resolve a context, then
guard with Python `if not context:` — i.e. the guard fires only on an empty
string — otherwise run the QA model on the context. -/
def answer_query (qa : String → String → String) (sims : String → List ℚ)
    (sections : List String) (query : String) : Option String :=
  match find_relevant_section query sections (sims query) with
  | none => none
  | some context =>
    some (if context = "" then sentinel else qa query context)

/-- `SupportBotAgent.adjust_response` (lines 126–144). Note that for
`"not helpful"` it re-runs `answer_query` on the augmented query, so the
context is re-resolved from the augmented query. -/
def adjust_response (qa : String → String → String) (sims : String → List ℚ)
    (sections : List String) (query response feedback : String) :
    Option String :=
  if feedback = "too vague" then
    match find_relevant_section query sections (sims query) with
    | none => none
    | some context =>
      some (response ++ "\n\n(More details:\n" ++ pyTake context 500 ++ "...)")
  else if feedback = "not helpful" then
    answer_query qa sims sections
      (query ++ " Please provide more detailed information with examples.")
  else
    some response

/-- The session mode of the Gradio app state dictionary. -/
inductive Mode where
  | waiting_for_upload : Mode
  | waiting_for_query : Mode
  | waiting_for_feedback : Mode
deriving DecidableEq

/-- The Gradio session state dictionary of `app.py`. The raw document text
and the section-embedding tensor are represented by `sections` together
with the similarity oracle passed to `handle_input`. -/
structure BotState where
  sections : List String
  current_query : Option String
  feedback_count : Nat
  mode : Mode
  chat_history : List (String × String)
  last_answer : Option String
deriving DecidableEq

/-- `initial_state` from `app.py` (lines 152–161). -/
def initial_state : BotState where
  sections := []
  current_query := none
  feedback_count := 0
  mode := Mode.waiting_for_upload
  chat_history := [("Bot", "Please upload a PDF or TXT file to start.")]
  last_answer := none

/-- The successful path of `process_file` (lines 78–88): install the new
sections, clear the query and counter, and enter `waiting_for_query`. -/
def process_file (secs : List String) (s : BotState) : BotState where
  sections := secs
  current_query := none
  feedback_count := 0
  mode := Mode.waiting_for_query
  chat_history := [("Bot", "File processed. You can now ask questions.")]
  last_answer := s.last_answer

/-- The feedback prompt appended to every answer message. -/
def feedbackPrompt : String :=
  "\nPlease provide feedback: good, too vague, not helpful."

/-- `handle_input(user_input, state)` from `app.py` (lines 91–137).
`qa` is the abstract QA capability and `sims` maps a query to the cosine
similarities of its embedding against the stored section embeddings.
`none` models an uncaught exception. -/
def handle_input (qa : String → String → String) (sims : String → List ℚ)
    (user_input : String) (s : BotState) : Option BotState :=
  match s.mode with
  | Mode.waiting_for_upload =>
    some { s with chat_history :=
      s.chat_history ++ [("Bot", "Please upload a file first.")] }
  | Mode.waiting_for_query =>
    match find_relevant_section user_input s.sections (sims user_input) with
    | none => none
    | some context =>
      let answer := if context = sentinel then context else qa user_input context
      some { s with
              current_query := some user_input
              feedback_count := 0
              last_answer := some answer
              mode := Mode.waiting_for_feedback
              chat_history := s.chat_history ++
                [("User", user_input),
                 ("Bot", "Answer: " ++ answer ++ feedbackPrompt)] }
  | Mode.waiting_for_feedback =>
    let feedback := pyLower user_input
    let hist := s.chat_history ++ [("User", feedback)]
    if feedback = "good" ∨ 2 ≤ s.feedback_count then
      if feedback = "good" then
        some { s with
                mode := Mode.waiting_for_query
                chat_history := hist ++
                  [("Bot", "Thank you for your feedback. You can ask another question.")] }
      else
        some { s with
                mode := Mode.waiting_for_query
                chat_history := hist ++
                  [("Bot", "Maximum feedback iterations reached. You can ask another question.")] }
    else
      match s.current_query with
      | none => none
      | some query =>
        match find_relevant_section query s.sections (sims query) with
        | none => none
        | some context =>
          if feedback = "too vague" then
            let adjusted := optStr s.last_answer ++ "\n\n(More details:\n" ++
              pyTake context 500 ++ "...)"
            some { s with
                    last_answer := some adjusted
                    feedback_count := s.feedback_count + 1
                    chat_history := hist ++
                      [("Bot", "Updated answer: " ++ adjusted ++ feedbackPrompt)] }
          else if feedback = "not helpful" then
            let adjusted := qa
              (query ++ " Please provide more detailed information with examples.")
              context
            some { s with
                    last_answer := some adjusted
                    feedback_count := s.feedback_count + 1
                    chat_history := hist ++
                      [("Bot", "Updated answer: " ++ adjusted ++ feedbackPrompt)] }
          else
            some { s with chat_history := hist ++
              [("Bot", "Please provide valid feedback: good, too vague, not helpful.")] }

/-- The session states reachable from `initial_state` through file uploads
and `handle_input` turns, over every choice of the abstract capabilities. -/
inductive Reachable : BotState → Prop where
  | init : Reachable initial_state
  | upload (s : BotState) (secs : List String) :
      Reachable s → Reachable (process_file secs s)
  | step (s s' : BotState) (qa : String → String → String)
      (sims : String → List ℚ) (input : String) :
      Reachable s → handle_input qa sims input s = some s' → Reachable s'

/-! ## Helper lemmas -/

lemma le_foldl_max (xs : List ℚ) (x : ℚ) : x ≤ xs.foldl max x := by
  induction xs generalizing x with
  | nil => exact le_refl x
  | cons y ys ih => exact le_trans (le_max_left x y) (ih (max x y))

lemma foldl_max_le_of_mem {xs : List ℚ} {y : ℚ} (h : y ∈ xs) (x : ℚ) :
    y ≤ xs.foldl max x := by
  induction xs generalizing x with
  | nil => cases h
  | cons z zs ih =>
    rcases List.mem_cons.mp h with rfl | hmem
    · exact le_trans (le_max_right x y) (le_foldl_max zs (max x y))
    · exact ih hmem (max x z)

lemma foldl_max_mem (xs : List ℚ) (x : ℚ) :
    xs.foldl max x = x ∨ xs.foldl max x ∈ xs := by
  induction xs generalizing x with
  | nil => exact Or.inl rfl
  | cons y ys ih =>
    rcases ih (max x y) with h | h
    · rcases max_choice x y with hm | hm
      · exact Or.inl (by rw [List.foldl_cons, h, hm])
      · exact Or.inr (by rw [List.foldl_cons, h, hm]; exact List.mem_cons_self y ys)
    · exact Or.inr (List.mem_cons_of_mem y h)

lemma listMax?_mem {l : List ℚ} {m : ℚ} (h : listMax? l = some m) : m ∈ l := by
  cases l with
  | nil => simp [listMax?] at h
  | cons x xs =>
    simp only [listMax?, Option.some.injEq] at h
    rcases foldl_max_mem xs x with hm | hm
    · rw [← h, hm]; exact List.mem_cons_self x xs
    · rw [← h]; exact List.mem_cons_of_mem x hm

lemma le_listMax? {l : List ℚ} {m : ℚ} (h : listMax? l = some m) :
    ∀ y ∈ l, y ≤ m := by
  intro y hy
  cases l with
  | nil => cases hy
  | cons x xs =>
    simp only [listMax?, Option.some.injEq] at h
    rcases List.mem_cons.mp hy with rfl | hmem
    · rw [← h]; exact le_foldl_max xs y
    · rw [← h]; exact foldl_max_le_of_mem hmem x

lemma argmaxIdx?_spec {l : List ℚ} {m : ℚ} (h : listMax? l = some m) :
    ∃ i, argmaxIdx? l = some i ∧ i < l.length ∧ l[i]? = some m ∧
      ∀ j, j < i → ∀ y, l[j]? = some y → y < m := by
  have hmem : m ∈ l := listMax?_mem h
  have hex : ∃ x ∈ l, (fun x => decide (x = m)) x = true :=
    ⟨m, hmem, by simp⟩
  have hlt : l.findIdx (fun x => decide (x = m)) < l.length :=
    List.findIdx_lt_length_of_exists hex
  refine ⟨l.findIdx (fun x => decide (x = m)), ?_, hlt, ?_, ?_⟩
  · simp only [argmaxIdx?, h, Option.map_some']
  · have := @List.findIdx_getElem _ (fun x => decide (x = m)) l hlt
    simp only [decide_eq_true_eq] at this
    rw [List.getElem?_eq_getElem hlt, this]
  · intro j hj y hy
    have hjl : j < l.length := lt_trans hj hlt
    have hne := List.not_of_lt_findIdx hj
    simp only [decide_eq_false_iff_not] at hne
    rw [List.getElem?_eq_getElem hjl] at hy
    have hyv : y = l[j] := (Option.some.injEq _ _ ▸ hy).symm
    have hle : y ≤ m := le_listMax? h y (hyv ▸ List.getElem_mem hjl)
    exact lt_of_le_of_ne hle (hyv ▸ hne)

lemma keywordSearch_mem {q : String} {l : List String} {sec : String}
    (h : keywordSearch q l = some sec) : sec ∈ l := by
  induction l with
  | nil => simp [keywordSearch] at h
  | cons x xs ih =>
    simp only [keywordSearch] at h
    by_cases hc : 2 ≤ commonCount q x
    · rw [if_pos hc] at h
      exact (Option.some.injEq _ _ ▸ h) ▸ List.mem_cons_self x xs
    · rw [if_neg hc] at h
      exact List.mem_cons_of_mem x (ih h)

lemma keywordSearch_first {q : String} {l : List String} {i : Nat} {sec : String}
    (hi : l[i]? = some sec) (hov : 2 ≤ commonCount q sec)
    (hfirst : ∀ j, j < i → ∀ s', l[j]? = some s' → commonCount q s' < 2) :
    keywordSearch q l = some sec := by
  induction l generalizing i with
  | nil => simp at hi
  | cons x xs ih =>
    cases i with
    | zero =>
      simp only [List.getElem?_cons_zero, Option.some.injEq] at hi
      subst hi
      simp only [keywordSearch, if_pos hov]
    | succ k =>
      have hx : commonCount q x < 2 := by
        exact hfirst 0 (Nat.succ_pos k) x (by simp)
      simp only [List.getElem?_cons_succ] at hi
      simp only [keywordSearch, if_neg (not_le.mpr hx)]
      exact ih hi (fun j hj s' hs' =>
        hfirst (j + 1) (Nat.succ_lt_succ hj) s' (by simpa using hs'))

lemma pyLower_too_vague : pyLower "too vague" = "too vague" := by decide

lemma handle_feedback_cap (qa : String → String → String)
    (sims : String → List ℚ) (input : String) (s : BotState)
    (hm : s.mode = Mode.waiting_for_feedback)
    (hcnt : 2 ≤ s.feedback_count) (hng : pyLower input ≠ "good") :
    handle_input qa sims input s = some { s with
      mode := Mode.waiting_for_query
      chat_history := (s.chat_history ++ [("User", pyLower input)]) ++
        [("Bot", "Maximum feedback iterations reached. You can ask another question.")] } := by
  unfold handle_input
  rw [hm]
  simp only []
  rw [if_pos (Or.inr hcnt), if_neg hng]

lemma handle_too_vague (qa : String → String → String)
    (sims : String → List ℚ) (s : BotState) (q ctx : String)
    (hm : s.mode = Mode.waiting_for_feedback) (hc : s.feedback_count < 2)
    (hq : s.current_query = some q)
    (hctx : find_relevant_section q s.sections (sims q) = some ctx) :
    handle_input qa sims "too vague" s = some { s with
      last_answer := some (optStr s.last_answer ++ "\n\n(More details:\n" ++
        pyTake ctx 500 ++ "...)")
      feedback_count := s.feedback_count + 1
      chat_history := (s.chat_history ++ [("User", "too vague")]) ++
        [("Bot", "Updated answer: " ++ (optStr s.last_answer ++
          "\n\n(More details:\n" ++ pyTake ctx 500 ++ "...)") ++ feedbackPrompt)] } := by
  unfold handle_input
  rw [hm]
  simp only [pyLower_too_vague]
  rw [if_neg (by
    rintro (hg | hge)
    · exact absurd hg (by decide)
    · exact absurd hge (not_le.mpr hc))]
  rw [hq]
  simp only []
  rw [hctx]
  simp only [if_true]

lemma handle_not_helpful (qa : String → String → String)
    (sims : String → List ℚ) (s : BotState) (q ctx : String)
    (hm : s.mode = Mode.waiting_for_feedback) (hc : s.feedback_count < 2)
    (hq : s.current_query = some q)
    (hctx : find_relevant_section q s.sections (sims q) = some ctx) :
    handle_input qa sims "not helpful" s = some { s with
      last_answer := some (qa
        (q ++ " Please provide more detailed information with examples.") ctx)
      feedback_count := s.feedback_count + 1
      chat_history := (s.chat_history ++ [("User", "not helpful")]) ++
        [("Bot", "Updated answer: " ++ qa
          (q ++ " Please provide more detailed information with examples.") ctx ++
          feedbackPrompt)] } := by
  unfold handle_input
  rw [hm]
  simp only [show pyLower "not helpful" = "not helpful" from by decide]
  rw [if_neg (by
    rintro (hg | hge)
    · exact absurd hg (by decide)
    · exact absurd hge (not_le.mpr hc))]
  rw [hq]
  simp only []
  rw [hctx]
  simp only []
  rw [if_neg (by decide)]
  simp only [if_true]

lemma handle_invalid (qa : String → String → String)
    (sims : String → List ℚ) (input : String) (s : BotState) (q ctx : String)
    (hm : s.mode = Mode.waiting_for_feedback) (hc : s.feedback_count < 2)
    (h1 : pyLower input ≠ "good") (h2 : pyLower input ≠ "too vague")
    (h3 : pyLower input ≠ "not helpful")
    (hq : s.current_query = some q)
    (hctx : find_relevant_section q s.sections (sims q) = some ctx) :
    handle_input qa sims input s = some { s with
      chat_history := (s.chat_history ++ [("User", pyLower input)]) ++
        [("Bot", "Please provide valid feedback: good, too vague, not helpful.")] } := by
  unfold handle_input
  rw [hm]
  simp only []
  rw [if_neg (by
    rintro (hg | hge)
    · exact absurd hg h1
    · exact absurd hge (not_le.mpr hc))]
  rw [hq]
  simp only []
  rw [hctx]
  simp only []
  rw [if_neg h2, if_neg h3]

lemma handle_input_count_le {qa : String → String → String}
    {sims : String → List ℚ} {input : String} {s s' : BotState}
    (h : handle_input qa sims input s = some s')
    (hs : s.feedback_count ≤ 2) : s'.feedback_count ≤ 2 := by
  unfold handle_input at h
  simp only [] at h
  repeat' split at h
  any_goals exact Option.noConfusion h
  all_goals obtain rfl := Option.some.inj h
  all_goals simp only [not_or, not_le] at *
  all_goals omega

lemma reachable_count_le (s : BotState) (h : Reachable s) :
    s.feedback_count ≤ 2 := by
  induction h with
  | init => exact Nat.zero_le 2
  | upload s secs _ _ => exact Nat.zero_le 2
  | step s s' qa sims input _ hstep ih => exact handle_input_count_le hstep ih

/-! ## Concrete capabilities and session states used in witnesses -/

def qa0 : String → String → String := fun _ _ => ""

def sims0 : String → List ℚ := fun _ => [0]

def qaConst : String → String → String := fun _ _ => "span"

def qaEcho : String → String → String := fun _ context => context

def simsSwitch : String → List ℚ :=
  fun q => if q = "q" then [mkRat 1 2, 0] else [0, mkRat 1 2]

def exF : BotState where
  sections := ["alpha"]
  current_query := some "q"
  feedback_count := 0
  mode := Mode.waiting_for_feedback
  chat_history := []
  last_answer := some "a"

def ex6 : BotState := { exF with feedback_count := 2 }

def exQ : BotState where
  sections := ["zzz"]
  current_query := none
  feedback_count := 0
  mode := Mode.waiting_for_query
  chat_history := []
  last_answer := none

def demo1 : BotState := process_file ["alpha"] initial_state

def demo2 : BotState := (handle_input qa0 sims0 "q" demo1).getD demo1

def demo3 : BotState := (handle_input qa0 sims0 "too vague" demo2).getD demo2

def demo4 : BotState := (handle_input qa0 sims0 "too vague" demo3).getD demo3

lemma reachable_demo4 : Reachable demo4 := by
  have h1 : Reachable demo1 := Reachable.upload _ _ Reachable.init
  have h2 : Reachable demo2 :=
    Reachable.step demo1 demo2 qa0 sims0 "q" h1 (by decide)
  have h3 : Reachable demo3 :=
    Reachable.step demo2 demo3 qa0 sims0 "too vague" h2 (by decide)
  exact Reachable.step demo3 demo4 qa0 sims0 "too vague" h3 (by decide)

/-! ## Claims -/

/-- C1: for every query and non-empty sections sequence with parallel
similarity scores, if the maximum similarity is at least the 0.4 threshold,
`find_relevant_section` returns the section at the argmax index, and that
index is the lowest index attaining the maximum (every earlier score is
strictly below the maximum). -/
theorem resolver_semantic_argmax (query : String) (sections : List String)
    (sims : List ℚ) (m : ℚ)
    (hlen : sims.length = sections.length) (hne : sections ≠ [])
    (hmax : listMax? sims = some m) (hth : SIMILARITY_THRESHOLD ≤ m) :
    ∃ i, i < sections.length ∧ sims[i]? = some m ∧
      (∀ j, j < i → ∀ y, sims[j]? = some y → y < m) ∧
      find_relevant_section query sections sims = sections[i]? := by
  obtain ⟨i, hargmax, hilt, hval, hfirst⟩ := argmaxIdx?_spec hmax
  have hisec : i < sections.length := hlen ▸ hilt
  refine ⟨i, hisec, hval, hfirst, ?_⟩
  simp only [find_relevant_section, hargmax, hval,
    List.getElem?_eq_getElem hisec, if_pos hth]

theorem resolver_semantic_argmax_witness :
    ([mkRat 1 2, mkRat 1 2] : List ℚ).length = (["a", "b"] : List String).length ∧
    (["a", "b"] : List String) ≠ [] ∧
    listMax? [mkRat 1 2, mkRat 1 2] = some (mkRat 1 2) ∧
    SIMILARITY_THRESHOLD ≤ mkRat 1 2 ∧
    (∃ i, i < (["a", "b"] : List String).length ∧
      ([mkRat 1 2, mkRat 1 2] : List ℚ)[i]? = some (mkRat 1 2) ∧
      (∀ j, j < i → ∀ y, ([mkRat 1 2, mkRat 1 2] : List ℚ)[j]? = some y → y < mkRat 1 2) ∧
      find_relevant_section "q" ["a", "b"] [mkRat 1 2, mkRat 1 2] = ["a", "b"][i]?) :=
  ⟨by decide, by decide, by decide, by decide,
    resolver_semantic_argmax "q" ["a", "b"] [mkRat 1 2, mkRat 1 2] (mkRat 1 2)
      (by decide) (by decide) (by decide) (by decide)⟩

/-- C2: when the maximum similarity is below the 0.4 threshold,
`find_relevant_section` returns the first section in original order whose
significant-word overlap with the query is at least 2, regardless of the
overlap counts of later sections (first-match policy). -/
theorem resolver_lexical_first_match (query : String) (sections : List String)
    (sims : List ℚ) (m : ℚ) (i : Nat) (sec : String)
    (hlen : sims.length = sections.length)
    (hmax : listMax? sims = some m) (hlow : m < SIMILARITY_THRESHOLD)
    (hi : sections[i]? = some sec) (hov : 2 ≤ commonCount query sec)
    (hfirst : ∀ j, j < i → ∀ s', sections[j]? = some s' →
      commonCount query s' < 2) :
    find_relevant_section query sections sims = some sec := by
  obtain ⟨bi, hargmax, hilt, hval, _⟩ := argmaxIdx?_spec hmax
  have hbisec : bi < sections.length := hlen ▸ hilt
  have hkw := keywordSearch_first hi hov hfirst
  simp only [find_relevant_section, hargmax, hval,
    List.getElem?_eq_getElem hbisec, if_neg (not_le.mpr hlow), hkw]

theorem resolver_lexical_first_match_witness :
    ([0, 0] : List ℚ).length =
      (["alpha beta", "alpha beta gamma"] : List String).length ∧
    listMax? [0, 0] = some 0 ∧
    (0 : ℚ) < SIMILARITY_THRESHOLD ∧
    (["alpha beta", "alpha beta gamma"] : List String)[0]? = some "alpha beta" ∧
    2 ≤ commonCount "alpha beta gamma" "alpha beta" ∧
    commonCount "alpha beta gamma" "alpha beta gamma" = 3 ∧
    find_relevant_section "alpha beta gamma" ["alpha beta", "alpha beta gamma"]
      [0, 0] = some "alpha beta" :=
  ⟨by decide, by decide, by decide, by decide, by decide, by decide,
    resolver_lexical_first_match "alpha beta gamma"
      ["alpha beta", "alpha beta gamma"] [0, 0] 0 0 "alpha beta"
      (by decide) (by decide) (by decide) (by decide) (by decide)
      (fun j hj s' _ => absurd hj (Nat.not_lt_zero j))⟩

/-- C8: on the empty sections sequence (with its empty parallel similarity
tensor) `find_relevant_section` does not return the sentinel: the `argmax`
call raises (modelled as `none`), i.e. the code crashes instead of
resolving to the sentinel. -/
theorem resolver_empty_sections_crash (query : String) :
    find_relevant_section query [] [] = none := rfl

/-- C9 (amended): whenever the semantic tier is below threshold and no
section reaches lexical overlap 2, `find_relevant_section` returns the
fixed sentinel string — which is the literal
"I don’t have enough information to answer that.", not the spec's
"insufficient information to answer." -/
theorem resolver_sentinel_fixed_string (query : String)
    (sections : List String) (sims : List ℚ) (m : ℚ)
    (hlen : sims.length = sections.length)
    (hmax : listMax? sims = some m) (hlow : m < SIMILARITY_THRESHOLD)
    (hkw : keywordSearch query sections = none) :
    find_relevant_section query sections sims = some sentinel ∧
      sentinel = "I don’t have enough information to answer that." := by
  obtain ⟨bi, hargmax, hilt, hval, _⟩ := argmaxIdx?_spec hmax
  have hbisec : bi < sections.length := hlen ▸ hilt
  refine ⟨?_, rfl⟩
  simp only [find_relevant_section, hargmax, hval,
    List.getElem?_eq_getElem hbisec, if_neg (not_le.mpr hlow), hkw]

theorem resolver_sentinel_fixed_string_witness :
    ([0] : List ℚ).length = (["zzz"] : List String).length ∧
    listMax? [0] = some 0 ∧
    (0 : ℚ) < SIMILARITY_THRESHOLD ∧
    keywordSearch "qq" ["zzz"] = none ∧
    (find_relevant_section "qq" ["zzz"] [0] = some sentinel ∧
      sentinel = "I don’t have enough information to answer that.") :=
  ⟨by decide, by decide, by decide, by decide,
    resolver_sentinel_fixed_string "qq" ["zzz"] [0] 0
      (by decide) (by decide) (by decide) (by decide)⟩

/-- C9 counterexample: on an input where neither tier selects a section the
resolver's result is not the spec's literal
"insufficient information to answer." -/
theorem resolver_sentinel_string_counterexample :
    find_relevant_section "qq" ["zzz"] [0] =
      some "I don’t have enough information to answer that." ∧
    find_relevant_section "qq" ["zzz"] [0] ≠
      some "insufficient information to answer." := by
  constructor
  · decide
  · decide

/-- C10: every successful result of `find_relevant_section` is either one
of the given sections or the sentinel string. -/
theorem resolver_closure (query : String) (sections : List String)
    (sims : List ℚ) (r : String)
    (h : find_relevant_section query sections sims = some r) :
    r ∈ sections ∨ r = sentinel := by
  unfold find_relevant_section at h
  split at h
  · exact Option.noConfusion h
  · split at h
    · exact Option.noConfusion h
    · rename_i best_idx hidx best_section hsec
      split at h
      · exact Option.noConfusion h
      · split at h
        · left
          obtain rfl := Option.some.inj h
          obtain ⟨hb, hv⟩ := List.getElem?_eq_some.mp hsec
          exact hv ▸ List.getElem_mem hb
        · split at h
          · rename_i sec hkw
            left
            obtain rfl := Option.some.inj h
            exact keywordSearch_mem hkw
          · right
            exact (Option.some.inj h).symm

theorem resolver_closure_witness :
    find_relevant_section "qq" ["zzz"] [0] = some sentinel ∧
    (sentinel ∈ (["zzz"] : List String) ∨ sentinel = sentinel) :=
  ⟨by decide, resolver_closure "qq" ["zzz"] [0] sentinel (by decide)⟩

/-- C3 (amended): in every reachable session state the feedback counter is
at most 2, and a non-`good` feedback submitted in `waiting_for_feedback`
with `feedback_count ≥ 2` forces the mode to `waiting_for_query` — but it
leaves `feedback_count` unchanged (at 2) rather than resetting it to 0;
the counter is only reset when the next query is handled. -/
theorem feedback_cap_invariant :
    (∀ s : BotState, Reachable s → s.feedback_count ≤ 2) ∧
    (∀ (s : BotState) (qa : String → String → String)
      (sims : String → List ℚ) (input : String), Reachable s →
      s.mode = Mode.waiting_for_feedback → 2 ≤ s.feedback_count →
      pyLower input ≠ "good" →
      ∃ s', handle_input qa sims input s = some s' ∧
        s'.mode = Mode.waiting_for_query ∧
        s'.feedback_count = s.feedback_count) := by
  refine ⟨reachable_count_le, ?_⟩
  intro s qa sims input _ hm hcnt hng
  exact ⟨_, handle_feedback_cap qa sims input s hm hcnt hng, rfl, rfl⟩

theorem feedback_cap_invariant_witness :
    Reachable demo4 ∧ demo4.mode = Mode.waiting_for_feedback ∧
    2 ≤ demo4.feedback_count ∧ pyLower "blah" ≠ "good" ∧
    demo4.feedback_count ≤ 2 ∧
    (∃ s', handle_input qa0 sims0 "blah" demo4 = some s' ∧
      s'.mode = Mode.waiting_for_query ∧
      s'.feedback_count = demo4.feedback_count) :=
  ⟨reachable_demo4, by decide, by decide, by decide,
    feedback_cap_invariant.1 demo4 reachable_demo4,
    feedback_cap_invariant.2 demo4 qa0 sims0 "blah" reachable_demo4
      (by decide) (by decide) (by decide)⟩

/-- C3 counterexample: `demo4` is a reachable state in
`waiting_for_feedback` with `feedback_count = 2`; submitting a further
non-`good` feedback moves the mode to `waiting_for_query` but the
resulting `feedback_count` is 2, not 0. -/
theorem feedback_cap_no_reset_counterexample :
    Reachable demo4 ∧ demo4.feedback_count = 2 ∧
    demo4.mode = Mode.waiting_for_feedback ∧
    (handle_input qa0 sims0 "too vague" demo4).map BotState.mode =
      some Mode.waiting_for_query ∧
    (handle_input qa0 sims0 "too vague" demo4).map BotState.feedback_count =
      some 2 ∧
    (handle_input qa0 sims0 "too vague" demo4).map BotState.feedback_count ≠
      some 0 :=
  ⟨reachable_demo4, by decide, by decide, by decide, by decide, by decide⟩

/-- C4: with `too vague` feedback below the iteration cap, the refined
answer is exactly the prior answer, then the literal separator
`"\n\n(More details:\n"`, then the first 500 characters of the resolved
context, then `"...)"`; the excerpt has length at most 500, and the result
does not depend on the QA capability (no QA model call is made). -/
theorem too_vague_refinement (qa qa' : String → String → String)
    (sims : String → List ℚ) (s : BotState) (q a ctx : String)
    (hm : s.mode = Mode.waiting_for_feedback) (hc : s.feedback_count < 2)
    (hq : s.current_query = some q) (ha : s.last_answer = some a)
    (hctx : find_relevant_section q s.sections (sims q) = some ctx) :
    ∃ s', handle_input qa sims "too vague" s = some s' ∧
      s'.last_answer =
        some (a ++ "\n\n(More details:\n" ++ pyTake ctx 500 ++ "...)") ∧
      (pyTake ctx 500).length ≤ 500 ∧
      s'.mode = Mode.waiting_for_feedback ∧
      handle_input qa sims "too vague" s =
        handle_input qa' sims "too vague" s := by
  refine ⟨_, handle_too_vague qa sims s q ctx hm hc hq hctx, ?_, ?_, ?_, ?_⟩
  · rw [ha]
    rfl
  · show (ctx.data.take 500).length ≤ 500
    rw [List.length_take]
    exact inf_le_left
  · exact hm ▸ rfl
  · rw [handle_too_vague qa sims s q ctx hm hc hq hctx,
      handle_too_vague qa' sims s q ctx hm hc hq hctx]

theorem too_vague_refinement_witness :
    exF.mode = Mode.waiting_for_feedback ∧ exF.feedback_count < 2 ∧
    exF.current_query = some "q" ∧ exF.last_answer = some "a" ∧
    find_relevant_section "q" exF.sections (sims0 "q") = some sentinel ∧
    (∃ s', handle_input qa0 sims0 "too vague" exF = some s' ∧
      s'.last_answer =
        some ("a" ++ "\n\n(More details:\n" ++ pyTake sentinel 500 ++ "...)") ∧
      (pyTake sentinel 500).length ≤ 500 ∧
      s'.mode = Mode.waiting_for_feedback ∧
      handle_input qa0 sims0 "too vague" exF =
        handle_input qaConst sims0 "too vague" exF) :=
  ⟨by decide, by decide, by decide, by decide, by decide,
    too_vague_refinement qa0 qaConst sims0 exF "q" "a" sentinel
      (by decide) (by decide) (by decide) (by decide) (by decide)⟩

/-- C5 (amended, Gradio app side): with `not helpful` feedback below the
iteration cap, `handle_input` re-resolves the context from the stored
original query over the unchanged sections — hence, the similarity oracle
being deterministic, the same context `ctx` that produced the prior
answer — and sets `last_answer` to a fresh QA extraction over `ctx` with
the query augmented by the literal instruction suffix. (In
`SupportBotAgent.adjust_response` the whole pipeline is re-run on the
augmented query instead, so there the context may differ; see the
counterexample.) -/
theorem not_helpful_refinement (qa : String → String → String)
    (sims : String → List ℚ) (s : BotState) (q ctx : String)
    (hm : s.mode = Mode.waiting_for_feedback) (hc : s.feedback_count < 2)
    (hq : s.current_query = some q)
    (hctx : find_relevant_section q s.sections (sims q) = some ctx) :
    ∃ s', handle_input qa sims "not helpful" s = some s' ∧
      s'.last_answer = some (qa
        (q ++ " Please provide more detailed information with examples.") ctx) ∧
      s'.mode = Mode.waiting_for_feedback ∧
      s'.feedback_count = s.feedback_count + 1 := by
  exact ⟨_, handle_not_helpful qa sims s q ctx hm hc hq hctx, rfl,
    hm ▸ rfl, rfl⟩

theorem not_helpful_refinement_witness :
    exF.mode = Mode.waiting_for_feedback ∧ exF.feedback_count < 2 ∧
    exF.current_query = some "q" ∧
    find_relevant_section "q" exF.sections (sims0 "q") = some sentinel ∧
    (∃ s', handle_input qaConst sims0 "not helpful" exF = some s' ∧
      s'.last_answer = some (qaConst
        ("q" ++ " Please provide more detailed information with examples.")
        sentinel) ∧
      s'.mode = Mode.waiting_for_feedback ∧
      s'.feedback_count = exF.feedback_count + 1) :=
  ⟨by decide, by decide, by decide, by decide,
    not_helpful_refinement qaConst sims0 exF "q" sentinel
      (by decide) (by decide) (by decide) (by decide)⟩

/-- C5 counterexample: in `SupportBotAgent.adjust_response`, `not helpful`
re-runs retrieval with the augmented query. With section similarities that
select section "A" for the original query but section "B" for the
augmented query, the fresh extraction runs over "B", not over the context
"A" used for the prior answer. -/
theorem not_helpful_context_counterexample :
    find_relevant_section "q" ["A", "B"] (simsSwitch "q") = some "A" ∧
    adjust_response qaEcho simsSwitch ["A", "B"] "q" "prior" "not helpful" =
      some "B" ∧
    adjust_response qaEcho simsSwitch ["A", "B"] "q" "prior" "not helpful" ≠
      some (qaEcho
        ("q" ++ " Please provide more detailed information with examples.")
        "A") := by
  refine ⟨by decide, by decide, by decide⟩

/-- C6 (amended): in `waiting_for_feedback` with `feedback_count < 2`, an
input outside the recognized vocabulary leaves every state field except the
chat history unchanged — the chat history only gains the user turn and the
re-prompt. (With `feedback_count ≥ 2` an invalid label instead triggers
the iteration-cap transition to `waiting_for_query`; see the
counterexample.) -/
theorem invalid_feedback_frame (qa : String → String → String)
    (sims : String → List ℚ) (input : String) (s : BotState) (q ctx : String)
    (hm : s.mode = Mode.waiting_for_feedback) (hc : s.feedback_count < 2)
    (h1 : pyLower input ≠ "good") (h2 : pyLower input ≠ "too vague")
    (h3 : pyLower input ≠ "not helpful")
    (hq : s.current_query = some q)
    (hctx : find_relevant_section q s.sections (sims q) = some ctx) :
    handle_input qa sims input s = some { s with
      chat_history := (s.chat_history ++ [("User", pyLower input)]) ++
        [("Bot", "Please provide valid feedback: good, too vague, not helpful.")] } :=
  handle_invalid qa sims input s q ctx hm hc h1 h2 h3 hq hctx

theorem invalid_feedback_frame_witness :
    exF.mode = Mode.waiting_for_feedback ∧ exF.feedback_count < 2 ∧
    pyLower "blah" ≠ "good" ∧ pyLower "blah" ≠ "too vague" ∧
    pyLower "blah" ≠ "not helpful" ∧ exF.current_query = some "q" ∧
    find_relevant_section "q" exF.sections (sims0 "q") = some sentinel ∧
    handle_input qa0 sims0 "blah" exF = some { exF with
      chat_history := (exF.chat_history ++ [("User", pyLower "blah")]) ++
        [("Bot", "Please provide valid feedback: good, too vague, not helpful.")] } :=
  ⟨by decide, by decide, by decide, by decide, by decide, by decide, by decide,
    invalid_feedback_frame qa0 sims0 "blah" exF "q" sentinel
      (by decide) (by decide) (by decide) (by decide) (by decide)
      (by decide) (by decide)⟩

/-- C6 counterexample: in `waiting_for_feedback` with `feedback_count = 2`,
the invalid label "blah" does not leave the state unchanged: the mode
moves to `waiting_for_query` (the iteration-cap branch fires before the
label is inspected). -/
theorem invalid_feedback_mode_change_counterexample :
    ex6.mode = Mode.waiting_for_feedback ∧ ex6.feedback_count = 2 ∧
    pyLower "blah" ≠ "good" ∧ pyLower "blah" ≠ "too vague" ∧
    pyLower "blah" ≠ "not helpful" ∧
    (handle_input qa0 sims0 "blah" ex6).map BotState.mode =
      some Mode.waiting_for_query := by
  refine ⟨by decide, by decide, by decide, by decide, by decide, by decide⟩

/-- C7: the claim holds for `handle_input` in `app.py` (a sentinel context
is stored as the answer unchanged, without a QA call), but
`SupportBotAgent.answer_query` guards with Python `if not context:`, which
is false for the non-empty sentinel string, so the agent DOES invoke the
QA capability on the sentinel: on a query resolving to the sentinel it
returns the QA model's output (here "span"), not the sentinel. -/
theorem answer_query_sentinel_bug :
    find_relevant_section "qq" ["zzz"] (sims0 "qq") = some sentinel ∧
    answer_query qaConst sims0 ["zzz"] "qq" = some (qaConst "qq" sentinel) ∧
    qaConst "qq" sentinel ≠ sentinel ∧
    (handle_input qaConst sims0 "qq" exQ).map BotState.last_answer =
      some (some sentinel) := by
  refine ⟨by decide, by decide, by decide, by decide⟩
